import Mathlib

/-!
Verification of the Flocker Configuration Persistence & Migration Engine
specification against a shallow embedding of the engine.

The engine itself (`flocker/control/_persistence.py` and
`flocker/control/_model.py`) ships only through its test suite here, so the
definitions below are modelled from the specification's data model (§3), wire
codec (§4.1), migration engine (§4.2), persistence service (§4.3) and lease
subsystem (§4.4), with concrete behaviours (error message text, expiry
scheduling) pinned by the accompanying test suite
(`flocker/control/test/test_persistence.py`).  The fake REST API client
(`flocker/apiclient/_client.py`) is present in full and is embedded directly
from that source.

Conventions: persistent sets and maps are embedded as lists (insertion
order); structural equality on the embedding refines the Python structural
equality.  Timestamps are timezone-aware instants measured in whole seconds
(the round-trip generators in the tests truncate datetimes to seconds).
-/

namespace Flocker

/-- Modelled from the spec: UUIDs identify datasets and nodes; the embedding
treats them as opaque identifiers with decidable equality. -/
structure UUID where
  val : String
deriving DecidableEq

/-- Modelled from the spec: file paths (mount points) are opaque path
strings. -/
abbrev FlockerPath := String

/-- Modelled from the spec (§4.1): the versionless JSON-like wire
representation.  Each allow-listed class is encoded as a `tagged` value: an
explicit type tag plus its field values; primitives and containers are
encoded directly. -/
inductive WireValue where
  | null
  | bool (b : Bool)
  | int (n : Int)
  | str (s : String)
  | list (xs : List WireValue)
  | tagged (tag : String) (fields : List (String × WireValue))

/-- Modelled from the spec (§3): a dataset record.  Identity is
`dataset_id`. -/
structure Dataset where
  dataset_id : UUID
  primary : UUID
  maximum_size : Int
  metadata : List (String × String)
  deleted : Bool
deriving DecidableEq

/-- Modelled from the spec (§3): a dataset's concrete presence on a node. -/
structure Manifestation where
  dataset : Dataset
  primary : Bool
deriving DecidableEq

/-- Modelled from the spec (§3): a Docker image reference. -/
structure DockerImage where
  repository : String
  tag : String
deriving DecidableEq

/-- Modelled from the spec (§3): a port mapping of an application. -/
structure Port where
  internal_port : Nat
  external_port : Nat
deriving DecidableEq

/-- Modelled from the spec (§3): a link between application ports. -/
structure Link where
  local_port : Nat
  remote_port : Nat
  «alias» : String
deriving DecidableEq

/-- Modelled from the spec (§3): a volume attached to an application. -/
structure AttachedVolume where
  manifestation : Manifestation
  mountpoint : FlockerPath
deriving DecidableEq

/-- Modelled from the spec (§3): an application (container) record. -/
structure Application where
  name : String
  image : DockerImage
  ports : List Port
  links : List Link
  volume : Option AttachedVolume
  environment : List (String × String)
  memory_limit : Option Int
  cpu_shares : Option Int
  running : Bool
deriving DecidableEq

/-- Modelled from the spec (§3): a node with its applications and its
manifestations keyed by dataset id. -/
structure Node where
  uuid : UUID
  applications : List Application
  manifestations : List (UUID × Manifestation)
deriving DecidableEq

/-- Modelled from the spec (§3): a time-bounded exclusive claim of a dataset
by a node.  `expiration = none` means the lease never auto-expires;
timestamps are timezone-aware instants in whole seconds. -/
structure Lease where
  dataset_id : UUID
  node_id : UUID
  expiration : Option Int
deriving DecidableEq

/-- Modelled from the spec (§3): the lease collection, keyed by dataset id,
at most one lease per dataset. -/
abbrev Leases := List Lease

/-- Modelled from the spec (§3): the full desired-state snapshot. -/
structure Deployment where
  nodes : List Node
  leases : Leases
deriving DecidableEq

/-- Modelled from the spec (§3): the persisted envelope carrying the schema
version of the encoding. -/
structure Configuration where
  version : Nat
  deployment : Deployment
deriving DecidableEq

/-! ### Wire codec: primitive encoders and decoders (§4.1) -/

/-- Modelled from the spec (§4.1): list decoding; fails if any element
fails. -/
def decodeListWith (g : WireValue → Option α) : List WireValue → Option (List α)
  | [] => some []
  | w :: ws =>
    match g w, decodeListWith g ws with
    | some a, some as => some (a :: as)
    | _, _ => none

theorem decodeListWith_map {α} (f : α → WireValue) (g : WireValue → Option α)
    (h : ∀ a, g (f a) = some a) (xs : List α) :
    decodeListWith g (xs.map f) = some xs := by
  induction xs with
  | nil => rfl
  | cons x xs ih => simp [decodeListWith, h, ih]

def UUID.toWire (u : UUID) : WireValue := .tagged "UUID" [("hex", .str u.val)]

def UUID.fromWire : WireValue → Option UUID
  | .tagged "UUID" [("hex", .str s)] => some ⟨s⟩
  | _ => none

theorem uuid_roundtrip (u : UUID) : UUID.fromWire u.toWire = some u := rfl

def encodePath (p : FlockerPath) : WireValue := .tagged "FilePath" [("path", .str p)]

def decodePath : WireValue → Option FlockerPath
  | .tagged "FilePath" [("path", .str s)] => some s
  | _ => none

theorem decodePath_encodePath (p : FlockerPath) : decodePath (encodePath p) = some p := rfl

def encodeStrPair (kv : String × String) : WireValue := .list [.str kv.1, .str kv.2]

def decodeStrPair : WireValue → Option (String × String)
  | .list [.str k, .str v] => some (k, v)
  | _ => none

def encodeStrMap (m : List (String × String)) : WireValue := .list (m.map encodeStrPair)

def decodeStrMap : WireValue → Option (List (String × String))
  | .list xs => decodeListWith decodeStrPair xs
  | _ => none

theorem decodeStrMap_encodeStrMap (m : List (String × String)) :
    decodeStrMap (encodeStrMap m) = some m := by
  simp [encodeStrMap, decodeStrMap,
        decodeListWith_map encodeStrPair decodeStrPair (fun a => rfl)]

def encodeOptInt : Option Int → WireValue
  | none => .null
  | some n => .int n

def decodeOptInt : WireValue → Option (Option Int)
  | .null => some none
  | .int n => some (some n)
  | _ => none

theorem decodeOptInt_encodeOptInt (x : Option Int) :
    decodeOptInt (encodeOptInt x) = some x := by
  cases x <;> rfl

/-- Modelled from the spec (§4.1): a timezone-aware timestamp (whole
seconds) is encoded with a `datetime` type tag. -/
def encodeAwareDatetime (t : Int) : WireValue :=
  .tagged "datetime" [("seconds", .int t)]

def decodeAwareDatetime : WireValue → Option Int
  | .tagged "datetime" [("seconds", .int t)] => some t
  | _ => none

theorem decodeAwareDatetime_encode (t : Int) :
    decodeAwareDatetime (encodeAwareDatetime t) = some t := rfl

def encodeOptDatetime : Option Int → WireValue
  | none => .null
  | some t => encodeAwareDatetime t

def decodeOptDatetime : WireValue → Option (Option Int)
  | .null => some none
  | .tagged t fs => (decodeAwareDatetime (.tagged t fs)).map some
  | _ => none

theorem decodeOptDatetime_encode (x : Option Int) :
    decodeOptDatetime (encodeOptDatetime x) = some x := by
  cases x <;> rfl

/-! ### Wire codec: allow-listed class encoders and decoders (§4.1) -/

def Dataset.toWire (d : Dataset) : WireValue :=
  .tagged "Dataset"
    [("dataset_id", d.dataset_id.toWire), ("primary", d.primary.toWire),
     ("maximum_size", .int d.maximum_size), ("metadata", encodeStrMap d.metadata),
     ("deleted", .bool d.deleted)]

def Dataset.fromWire : WireValue → Option Dataset
  | .tagged "Dataset"
      [("dataset_id", did), ("primary", pr),
       ("maximum_size", .int ms), ("metadata", md), ("deleted", .bool del)] =>
    match UUID.fromWire did, UUID.fromWire pr, decodeStrMap md with
    | some i, some p, some m => some ⟨i, p, ms, m, del⟩
    | _, _, _ => none
  | _ => none

theorem dataset_roundtrip (d : Dataset) : Dataset.fromWire d.toWire = some d := by
  cases d
  simp [Dataset.toWire, Dataset.fromWire, uuid_roundtrip, decodeStrMap_encodeStrMap]

def Manifestation.toWire (m : Manifestation) : WireValue :=
  .tagged "Manifestation" [("dataset", m.dataset.toWire), ("primary", .bool m.primary)]

def Manifestation.fromWire : WireValue → Option Manifestation
  | .tagged "Manifestation" [("dataset", dw), ("primary", .bool p)] =>
    match Dataset.fromWire dw with
    | some d => some ⟨d, p⟩
    | none => none
  | _ => none

theorem manifestation_roundtrip (m : Manifestation) :
    Manifestation.fromWire m.toWire = some m := by
  cases m
  simp [Manifestation.toWire, Manifestation.fromWire, dataset_roundtrip]

def DockerImage.toWire (i : DockerImage) : WireValue :=
  .tagged "DockerImage" [("repository", .str i.repository), ("tag", .str i.tag)]

def DockerImage.fromWire : WireValue → Option DockerImage
  | .tagged "DockerImage" [("repository", .str r), ("tag", .str t)] => some ⟨r, t⟩
  | _ => none

theorem dockerImage_roundtrip (i : DockerImage) :
    DockerImage.fromWire i.toWire = some i := rfl

def Port.toWire (p : Port) : WireValue :=
  .tagged "Port"
    [("internal_port", .int p.internal_port), ("external_port", .int p.external_port)]

def Port.fromWire : WireValue → Option Port
  | .tagged "Port" [("internal_port", .int i), ("external_port", .int e)] =>
    some ⟨i.toNat, e.toNat⟩
  | _ => none

theorem port_roundtrip (p : Port) : Port.fromWire p.toWire = some p := by
  cases p
  simp [Port.toWire, Port.fromWire]

def Link.toWire (l : Link) : WireValue :=
  .tagged "Link"
    [("local_port", .int l.local_port), ("remote_port", .int l.remote_port),
     ("alias", .str l.alias)]

def Link.fromWire : WireValue → Option Link
  | .tagged "Link"
      [("local_port", .int lp), ("remote_port", .int rp), ("alias", .str a)] =>
    some ⟨lp.toNat, rp.toNat, a⟩
  | _ => none

theorem link_roundtrip (l : Link) : Link.fromWire l.toWire = some l := by
  cases l
  simp [Link.toWire, Link.fromWire]

def AttachedVolume.toWire (v : AttachedVolume) : WireValue :=
  .tagged "AttachedVolume"
    [("manifestation", v.manifestation.toWire), ("mountpoint", encodePath v.mountpoint)]

def AttachedVolume.fromWire : WireValue → Option AttachedVolume
  | .tagged "AttachedVolume" [("manifestation", mw), ("mountpoint", pw)] =>
    match Manifestation.fromWire mw, decodePath pw with
    | some m, some p => some ⟨m, p⟩
    | _, _ => none
  | _ => none

theorem attachedVolume_roundtrip (v : AttachedVolume) :
    AttachedVolume.fromWire v.toWire = some v := by
  cases v
  simp [AttachedVolume.toWire, AttachedVolume.fromWire, manifestation_roundtrip,
        decodePath_encodePath]

def encodeOptVolume : Option AttachedVolume → WireValue
  | none => .null
  | some v => v.toWire

def decodeOptVolume : WireValue → Option (Option AttachedVolume)
  | .null => some none
  | .tagged t fs => (AttachedVolume.fromWire (.tagged t fs)).map some
  | _ => none

theorem decodeOptVolume_encode (x : Option AttachedVolume) :
    decodeOptVolume (encodeOptVolume x) = some x := by
  cases x with
  | none => rfl
  | some v =>
    simp [encodeOptVolume, AttachedVolume.toWire, decodeOptVolume]
    have h := attachedVolume_roundtrip v
    simp [AttachedVolume.toWire] at h
    simp [h]

def Application.toWire (a : Application) : WireValue :=
  .tagged "Application"
    [("name", .str a.name), ("image", a.image.toWire),
     ("ports", .list (a.ports.map Port.toWire)),
     ("links", .list (a.links.map Link.toWire)),
     ("volume", encodeOptVolume a.volume),
     ("environment", encodeStrMap a.environment),
     ("memory_limit", encodeOptInt a.memory_limit),
     ("cpu_shares", encodeOptInt a.cpu_shares),
     ("running", .bool a.running)]

def Application.fromWire : WireValue → Option Application
  | .tagged "Application"
      [("name", .str nm), ("image", iw), ("ports", .list pws), ("links", .list lws),
       ("volume", vw), ("environment", ew), ("memory_limit", mw), ("cpu_shares", cw),
       ("running", .bool r)] =>
    match DockerImage.fromWire iw, decodeListWith Port.fromWire pws,
          decodeListWith Link.fromWire lws, decodeOptVolume vw, decodeStrMap ew,
          decodeOptInt mw, decodeOptInt cw with
    | some i, some ps, some ls, some v, some e, some ml, some cs =>
      some ⟨nm, i, ps, ls, v, e, ml, cs, r⟩
    | _, _, _, _, _, _, _ => none
  | _ => none

set_option maxHeartbeats 1600000 in
theorem application_roundtrip (a : Application) :
    Application.fromWire a.toWire = some a := by
  cases a
  simp [Application.toWire, Application.fromWire, dockerImage_roundtrip,
        decodeListWith_map Port.toWire Port.fromWire port_roundtrip,
        decodeListWith_map Link.toWire Link.fromWire link_roundtrip,
        decodeOptVolume_encode, decodeStrMap_encodeStrMap, decodeOptInt_encodeOptInt]

def encodeManifestationEntry (e : UUID × Manifestation) : WireValue :=
  .list [e.1.toWire, e.2.toWire]

def decodeManifestationEntry : WireValue → Option (UUID × Manifestation)
  | .list [kw, mw] =>
    match UUID.fromWire kw, Manifestation.fromWire mw with
    | some k, some m => some (k, m)
    | _, _ => none
  | _ => none

theorem decodeManifestationEntry_encode (e : UUID × Manifestation) :
    decodeManifestationEntry (encodeManifestationEntry e) = some e := by
  cases e
  simp [encodeManifestationEntry, decodeManifestationEntry, uuid_roundtrip,
        manifestation_roundtrip]

def Node.toWire (n : Node) : WireValue :=
  .tagged "Node"
    [("uuid", n.uuid.toWire),
     ("applications", .list (n.applications.map Application.toWire)),
     ("manifestations", .list (n.manifestations.map encodeManifestationEntry))]

def Node.fromWire : WireValue → Option Node
  | .tagged "Node"
      [("uuid", uw), ("applications", .list aws), ("manifestations", .list mws)] =>
    match UUID.fromWire uw, decodeListWith Application.fromWire aws,
          decodeListWith decodeManifestationEntry mws with
    | some u, some as, some ms => some ⟨u, as, ms⟩
    | _, _, _ => none
  | _ => none

theorem node_roundtrip (n : Node) : Node.fromWire n.toWire = some n := by
  cases n
  simp [Node.toWire, Node.fromWire, uuid_roundtrip,
        decodeListWith_map Application.toWire Application.fromWire
          application_roundtrip,
        decodeListWith_map encodeManifestationEntry decodeManifestationEntry
          decodeManifestationEntry_encode]

def Lease.toWire (l : Lease) : WireValue :=
  .tagged "Lease"
    [("dataset_id", l.dataset_id.toWire), ("node_id", l.node_id.toWire),
     ("expiration", encodeOptDatetime l.expiration)]

def Lease.fromWire : WireValue → Option Lease
  | .tagged "Lease" [("dataset_id", dw), ("node_id", nw), ("expiration", ew)] =>
    match UUID.fromWire dw, UUID.fromWire nw, decodeOptDatetime ew with
    | some d, some n, some e => some ⟨d, n, e⟩
    | _, _, _ => none
  | _ => none

theorem lease_roundtrip (l : Lease) : Lease.fromWire l.toWire = some l := by
  cases l
  simp [Lease.toWire, Lease.fromWire, uuid_roundtrip, decodeOptDatetime_encode]

def encodeLeases (ls : Leases) : WireValue :=
  .tagged "Leases" [("values", .list (ls.map Lease.toWire))]

def decodeLeases : WireValue → Option Leases
  | .tagged "Leases" [("values", .list lws)] => decodeListWith Lease.fromWire lws
  | _ => none

theorem decodeLeases_encodeLeases (ls : Leases) :
    decodeLeases (encodeLeases ls) = some ls := by
  simp [encodeLeases, decodeLeases,
        decodeListWith_map Lease.toWire Lease.fromWire lease_roundtrip]

def Deployment.toWire (d : Deployment) : WireValue :=
  .tagged "Deployment"
    [("nodes", .list (d.nodes.map Node.toWire)), ("leases", encodeLeases d.leases)]

def Deployment.fromWire : WireValue → Option Deployment
  | .tagged "Deployment" [("nodes", .list nws), ("leases", lw)] =>
    match decodeListWith Node.fromWire nws, decodeLeases lw with
    | some ns, some ls => some ⟨ns, ls⟩
    | _, _ => none
  | _ => none

theorem deployment_roundtrip (d : Deployment) :
    Deployment.fromWire d.toWire = some d := by
  cases d
  simp [Deployment.toWire, Deployment.fromWire,
        decodeListWith_map Node.toWire Node.fromWire node_roundtrip,
        decodeLeases_encodeLeases]

def Configuration.toWire (c : Configuration) : WireValue :=
  .tagged "Configuration"
    [("version", .int c.version), ("deployment", c.deployment.toWire)]

def Configuration.fromWire : WireValue → Option Configuration
  | .tagged "Configuration" [("version", .int v), ("deployment", dw)] =>
    match Deployment.fromWire dw with
    | some d => some ⟨v.toNat, d⟩
    | none => none
  | _ => none

theorem configuration_roundtrip (c : Configuration) :
    Configuration.fromWire c.toWire = some c := by
  cases c
  simp [Configuration.toWire, Configuration.fromWire, deployment_roundtrip]

/-! ### Wire codec: allow-listed polymorphic decode (§4.1, §9) -/

/-- Modelled from the spec (§4.1, glossary): the fixed allow-list of
serializable classes, identified by their type tags. -/
def SERIALIZABLE_CLASSES : List String :=
  ["Deployment", "Node", "Application", "Dataset", "Manifestation",
   "AttachedVolume", "DockerImage", "Port", "Link", "Lease", "Leases",
   "Configuration", "UUID", "FilePath", "datetime"]

/-- Modelled from the spec (§9): the result of the polymorphic decode — a
closed tagged-variant union over the known serializable types, with an
explicit unknown/opaque variant for everything else. -/
inductive Decoded where
  | deployment (d : Deployment)
  | node (n : Node)
  | application (a : Application)
  | dataset (d : Dataset)
  | manifestation (m : Manifestation)
  | volume (v : AttachedVolume)
  | image (i : DockerImage)
  | port (p : Port)
  | link (l : Link)
  | lease (l : Lease)
  | leases (ls : Leases)
  | configuration (c : Configuration)
  | uuid (u : UUID)
  | path (p : FlockerPath)
  | datetime (t : Int)
  | unknown (w : WireValue)

/-- Modelled from the spec (§9): the exhaustive switch over known type
tags. -/
def decodeByTag (tag : String) (w : WireValue) : Option Decoded :=
  if tag = "Deployment" then (Deployment.fromWire w).map .deployment
  else if tag = "Node" then (Node.fromWire w).map .node
  else if tag = "Application" then (Application.fromWire w).map .application
  else if tag = "Dataset" then (Dataset.fromWire w).map .dataset
  else if tag = "Manifestation" then (Manifestation.fromWire w).map .manifestation
  else if tag = "AttachedVolume" then (AttachedVolume.fromWire w).map .volume
  else if tag = "DockerImage" then (DockerImage.fromWire w).map .image
  else if tag = "Port" then (Port.fromWire w).map .port
  else if tag = "Link" then (Link.fromWire w).map .link
  else if tag = "Lease" then (Lease.fromWire w).map .lease
  else if tag = "Leases" then (decodeLeases w).map .leases
  else if tag = "Configuration" then (Configuration.fromWire w).map .configuration
  else if tag = "UUID" then (UUID.fromWire w).map .uuid
  else if tag = "FilePath" then (decodePath w).map .path
  else if tag = "datetime" then (decodeAwareDatetime w).map .datetime
  else none

/-- Modelled from the spec (§4.1, §9): decode materializes only types whose
tag is in the allow-list supplied at decode time, and yields the explicit
generic `unknown` value for any other tag (and for malformed field data). -/
def wire_decode (allowed : List String) (w : WireValue) : Decoded :=
  match w with
  | .tagged tag fields =>
    if tag ∈ allowed then
      match decodeByTag tag (.tagged tag fields) with
      | some v => v
      | none => .unknown (.tagged tag fields)
    else .unknown (.tagged tag fields)
  | v => .unknown v

/-- Modelled from the spec (§4.1): `wire_encode` on the unit of
configuration, the `Deployment` object graph (the tests' round-trip property
quantifies over generated deployments). -/
def wire_encode (d : Deployment) : WireValue := d.toWire

theorem wire_decode_tagged_mem (allowed : List String) (tag : String)
    (fields : List (String × WireValue)) (h : tag ∈ allowed) :
    wire_decode allowed (.tagged tag fields) =
      match decodeByTag tag (.tagged tag fields) with
      | some v => v
      | none => .unknown (.tagged tag fields) := by
  simp [wire_decode, h]

/-- C1: wire codec round-trip — for every `Deployment` value constructible
from the allow-listed types, decoding the encoding with the standard
allow-list returns the same deployment. -/
theorem wire_decode_wire_encode_roundtrip (d : Deployment) :
    wire_decode SERIALIZABLE_CLASSES (wire_encode d) = .deployment d := by
  have hdec : Deployment.fromWire (wire_encode d) = some d := deployment_roundtrip d
  have henc : wire_encode d = .tagged "Deployment"
      [("nodes", .list (d.nodes.map Node.toWire)), ("leases", encodeLeases d.leases)] := rfl
  rw [henc] at hdec ⊢
  rw [wire_decode_tagged_mem _ _ _ (by decide)]
  simp [decodeByTag, hdec]

/-- Modelled from the spec (§4.1): an object of a serializable class outside
the closed union — e.g. the test's `Temp` record — seen only through its
type tag and encoded fields. -/
structure ExtObj where
  tag : String
  fields : List (String × WireValue)

/-- Modelled from the spec (§4.1): such an object encodes like any
allow-listed type: its tag plus its field values. -/
def ExtObj.toWire (e : ExtObj) : WireValue := .tagged e.tag e.fields

/-- C3: allow-list enforcement — decoding the encoding of a value whose type
tag is absent from the allow-list at decode time yields the generic
`unknown` value carrying the raw wire data, never a materialized instance of
that type. -/
theorem wire_decode_not_allowed_unknown (allowed : List String) (e : ExtObj)
    (h : e.tag ∉ allowed) :
    wire_decode allowed e.toWire = .unknown e.toWire := by
  simp [wire_decode, ExtObj.toWire, h]

/-- Witness for C3 at a concrete input: the tag `Temp` is not in the
standard allow-list, and decoding its encoding yields the unknown value. -/
theorem wire_decode_not_allowed_unknown_witness :
    ("Temp" ∉ SERIALIZABLE_CLASSES) ∧
      wire_decode SERIALIZABLE_CLASSES (ExtObj.toWire ⟨"Temp", []⟩) =
        .unknown (ExtObj.toWire ⟨"Temp", []⟩) :=
  ⟨by decide, wire_decode_not_allowed_unknown SERIALIZABLE_CLASSES ⟨"Temp", []⟩ (by decide)⟩

/-! ### Wire codec: timestamps at the encoder boundary (§4.1, §7) -/

/-- Modelled from the spec (§4.1): a timestamp value presented to the
encoder; `tzAware = false` is a timezone-naive timestamp. -/
structure PyDatetime where
  seconds : Int
  tzAware : Bool
deriving DecidableEq

/-- Modelled from the spec (§7): codec errors — `InvalidInput` for values
outside the allow-list's supported shapes. -/
inductive CodecError where
  | invalidInput (message : String)
deriving DecidableEq

/-- Modelled from the spec (§4.1): encoding a timestamp requires a timezone;
a timezone-naive timestamp fails with `InvalidInput` and is never silently
given a timezone. -/
def wire_encode_datetime (d : PyDatetime) : Except CodecError WireValue :=
  if d.tzAware then .ok (encodeAwareDatetime d.seconds)
  else .error (.invalidInput "naive datetime without timezone")

/-- C8: naive-timestamp rejection — encoding a timezone-naive timestamp
fails with an `InvalidInput` error, while a timezone-carrying timestamp is
accepted (and decodes back to the same instant under the standard
allow-list). -/
theorem wire_encode_datetime_rejects_naive (d : PyDatetime) :
    (d.tzAware = false →
      wire_encode_datetime d =
        .error (.invalidInput "naive datetime without timezone")) ∧
    (d.tzAware = true →
      wire_encode_datetime d = .ok (encodeAwareDatetime d.seconds) ∧
        wire_decode SERIALIZABLE_CLASSES (encodeAwareDatetime d.seconds) =
          .datetime d.seconds) := by
  constructor
  · intro h
    simp [wire_encode_datetime, h]
  · intro h
    refine ⟨by simp [wire_encode_datetime, h], ?_⟩
    rw [encodeAwareDatetime, wire_decode_tagged_mem _ _ _ (by decide)]
    rfl

/-- Witness for C8 at concrete inputs: the naive timestamp at second 5 is
rejected, and the aware timestamp at second 7 is encoded and decodes back. -/
theorem wire_encode_datetime_rejects_naive_witness :
    (wire_encode_datetime ⟨5, false⟩ =
      .error (.invalidInput "naive datetime without timezone")) ∧
    (wire_encode_datetime ⟨7, true⟩ = .ok (encodeAwareDatetime 7) ∧
      wire_decode SERIALIZABLE_CLASSES (encodeAwareDatetime 7) = .datetime 7) :=
  ⟨(wire_encode_datetime_rejects_naive ⟨5, false⟩).1 rfl,
   (wire_encode_datetime_rejects_naive ⟨7, true⟩).2 rfl⟩

/-! ### Migration engine (§4.2) -/

/-- Modelled from the spec (§7): migration errors — `missingMigration` when
no migration path exists for the requested span, `configurationMigration`
when a step received a blob whose declared version did not match. -/
inductive MigrationError where
  | missingMigration (message : String)
  | configurationMigration (message : String)
deriving DecidableEq

/-- A persisted configuration blob (a JSON byte string in the source). -/
abbrev ConfigBlob := String

/-- Modelled from the spec (§4.2): one upgrade operation, taking a blob at
version N to a blob at version N+1 or failing. -/
abbrev MigrationStep := ConfigBlob → Except String ConfigBlob

/-- Modelled from the spec (§4.2): a migration table exposes at most one
upgrade operation per version, named `upgrade_from_v` followed by the
version number. -/
abbrev MigrationTable := Nat → Option MigrationStep

/-- Modelled from the spec (§4.2) with the exact text pinned by the test
suite: the `MissingMigrationError` message names the missing step and a
version span. -/
def missingMigrationMessage (missingV target : Nat) : String :=
  "Unable to find a migration path for a version " ++ toString missingV ++
  " to version " ++ toString target ++
  " configuration. No migration method upgrade_from_v" ++ toString missingV ++
  " could be found."

/-- The sequential upgrade loop of `migrate_configuration`; the fuel is the
number of remaining single-version steps. -/
def migrateLoop (table : MigrationTable) (target : Nat) :
    Nat → Nat → ConfigBlob → Except MigrationError ConfigBlob
  | 0, _, cfg => .ok cfg
  | fuel + 1, v, cfg =>
    match table v with
    | none => .error (.missingMigration (missingMigrationMessage v target))
    | some step =>
      match step cfg with
      | .error e => .error (.configurationMigration e)
      | .ok next => migrateLoop table target fuel (v + 1) next

/-- Modelled from the spec (§4.2): resolve a strictly increasing sequential
path by applying `upgrade_from_v source`, `upgrade_from_v (source+1)`, …
until `target` is reached. -/
def migrate_configuration (source target : Nat) (config : ConfigBlob)
    (table : MigrationTable) : Except MigrationError ConfigBlob :=
  migrateLoop table target (target - source) source config

theorem migrate_configuration_stop (source target : Nat) (cfg : ConfigBlob)
    (table : MigrationTable) (h : ¬ source < target) :
    migrate_configuration source target cfg table = .ok cfg := by
  unfold migrate_configuration
  have hz : target - source = 0 := by omega
  rw [hz]
  rfl

theorem migrate_configuration_step (source target : Nat) (cfg : ConfigBlob)
    (table : MigrationTable) (h : source < target) :
    migrate_configuration source target cfg table =
      match table source with
      | none => .error (.missingMigration (missingMigrationMessage source target))
      | some step =>
        match step cfg with
        | .error e => .error (.configurationMigration e)
        | .ok next => migrate_configuration (source + 1) target next table := by
  unfold migrate_configuration
  have h1 : target - source = (target - (source + 1)) + 1 := by omega
  rw [h1]
  rfl

theorem migrate_prefix_ok (n : Nat) :
    ∀ (a b c : Nat) (blob blob' : ConfigBlob) (table : MigrationTable),
      b = a + n → b ≤ c →
      migrate_configuration a b blob table = .ok blob' →
      migrate_configuration a c blob table = migrate_configuration b c blob' table := by
  induction n with
  | zero =>
    intro a b c blob blob' table hb _ hrun
    subst hb
    rw [migrate_configuration_stop _ _ _ _ (by omega)] at hrun
    cases hrun
    simp
  | succ n ih =>
    intro a b c blob blob' table hb hbc hrun
    have hab : a < b := by omega
    have hac : a < c := by omega
    rw [migrate_configuration_step _ _ _ _ hab] at hrun
    rw [migrate_configuration_step _ _ _ _ hac]
    cases htab : table a with
    | none => simp only [htab] at hrun; simp at hrun
    | some step =>
      simp only [htab] at hrun
      simp only []
      cases hstep : step blob with
      | error e => simp only [hstep] at hrun; simp at hrun
      | ok next =>
        simp only [hstep] at hrun
        simp only [hstep]
        exact ih (a + 1) b c next blob' table (by omega) hbc hrun

theorem migrate_prefix_error (n : Nat) :
    ∀ (a b c : Nat) (blob : ConfigBlob) (e : MigrationError) (table : MigrationTable),
      b = a + n → b ≤ c →
      (∀ j, a ≤ j → j < b → (table j).isSome) →
      migrate_configuration a b blob table = .error e →
      migrate_configuration a c blob table = .error e := by
  induction n with
  | zero =>
    intro a b c blob e table hb _ _ hrun
    subst hb
    rw [migrate_configuration_stop _ _ _ _ (by omega)] at hrun
    cases hrun
  | succ n ih =>
    intro a b c blob e table hb hbc hsteps hrun
    have hab : a < b := by omega
    have hac : a < c := by omega
    rw [migrate_configuration_step _ _ _ _ hab] at hrun
    rw [migrate_configuration_step _ _ _ _ hac]
    cases htab : table a with
    | none =>
      have hs := hsteps a (Nat.le_refl a) (by omega)
      rw [htab] at hs
      simp at hs
    | some step =>
      simp only [htab] at hrun
      simp only []
      cases hstep : step blob with
      | error e' =>
        simp only [hstep] at hrun
        simp only [hstep]
        exact hrun
      | ok next =>
        simp only [hstep] at hrun
        simp only [hstep]
        exact ih (a + 1) b c next e table (by omega) hbc
          (fun j hj hjb => hsteps j (by omega) hjb) hrun

/-- C4: migration composability — when the table provides every step of the
requested span, migrating `a → c` directly equals migrating `a → b` and
feeding the result to the migration `b → c`. -/
theorem migrate_configuration_compose (a b c : Nat) (blob : ConfigBlob)
    (table : MigrationTable) (hab : a ≤ b) (hbc : b ≤ c)
    (hsteps : ∀ k, a ≤ k → k < c → (table k).isSome) :
    migrate_configuration a c blob table =
      Except.bind (migrate_configuration a b blob table)
        (fun r => migrate_configuration b c r table) := by
  cases hrun : migrate_configuration a b blob table with
  | ok blob' =>
    rw [migrate_prefix_ok (b - a) a b c blob blob' table (by omega) hbc hrun]
    rfl
  | error e =>
    rw [migrate_prefix_error (b - a) a b c blob e table (by omega) hbc
      (fun j hj hjb => hsteps j hj (by omega)) hrun]
    rfl

/-! ### The stub migration table of the test suite -/

def listLeadsWith : List Char → List Char → Bool
  | [], _ => true
  | _ :: _, [] => false
  | a :: as, b :: bs => a == b && listLeadsWith as bs

def listHasRun : List Char → List Char → Bool
  | needle, [] => listLeadsWith needle []
  | needle, b :: bs => listLeadsWith needle (b :: bs) || listHasRun needle bs

/-- `strHasSub needle hay` holds when `needle` occurs contiguously inside
`hay`. -/
def strHasSub (needle hay : String) : Bool :=
  listHasRun needle.toList hay.toList

def stubV1Config : ConfigBlob := "\x7b\"version\": 1\x7d"

def stubV2Config : ConfigBlob := "\x7b\"version\": 2, \"configuration\": \"fake\"\x7d"

def stubV3Config : ConfigBlob := "\x7b\"version\": 3, \"configuration\": \"fake\"\x7d"

/-- Modelled from the test suite's `StubMigration.upgrade_from_v1`: checks
the declared version and returns a fixed v2 blob. -/
def upgrade_from_v1 : MigrationStep := fun cfg =>
  if strHasSub "\"version\": 1" cfg then .ok stubV2Config
  else .error "Supplied configuration was not a valid v1 config."

/-- Modelled from the test suite's `StubMigration.upgrade_from_v2`: checks
the declared version and returns a fixed v3 blob. -/
def upgrade_from_v2 : MigrationStep := fun cfg =>
  if strHasSub "\"version\": 2" cfg then .ok stubV3Config
  else .error "Supplied configuration was not a valid v2 config."

/-- Modelled from the test suite's `StubMigration` class: upgrade methods
exist for versions 1 and 2 only. -/
def StubMigration : MigrationTable := fun k =>
  if k = 1 then some upgrade_from_v1
  else if k = 2 then some upgrade_from_v2
  else none

/-- Witness for C4 at the test's concrete input: composing `1 → 2` with
`2 → 3` over the stub table equals migrating `1 → 3` directly. -/
theorem migrate_configuration_compose_witness :
    migrate_configuration 1 3 stubV1Config StubMigration =
      Except.bind (migrate_configuration 1 2 stubV1Config StubMigration)
        (fun r => migrate_configuration 2 3 r StubMigration) :=
  migrate_configuration_compose 1 2 3 stubV1Config StubMigration
    (by omega) (by omega)
    (by
      intro k h1 h2
      have hk : k = 1 ∨ k = 2 := by omega
      rcases hk with hk | hk <;> subst hk <;> decide)

/-- C5 counterexample: on the test's concrete request — migrating the v1
stub blob across the span 1 → 4 over a table whose `upgrade_from_v3` is
absent — the `MissingMigrationError` message names the missing step
`upgrade_from_v3` and the span from version 3 to version 4, but the
requested source version 1 appears nowhere in it, so the message does not
identify the full requested span 1 → 4. -/
theorem migrate_configuration_error_names_local_span :
    migrate_configuration 1 4 stubV1Config StubMigration =
      .error (.missingMigration (missingMigrationMessage 3 4)) ∧
    strHasSub "upgrade_from_v3" (missingMigrationMessage 3 4) = true ∧
    strHasSub "version 3 to version 4" (missingMigrationMessage 3 4) = true ∧
    strHasSub "1" (missingMigrationMessage 3 4) = false :=
  ⟨rfl, rfl, rfl, rfl⟩

/-- C5 (amended): when the span `a → c` is requested, the steps up to some
version `k < c` succeed, and `upgrade_from_v k` is absent from the table,
`migrate_configuration` fails with a `MissingMigrationError` whose message
deterministically names the missing step `upgrade_from_v k` and the span
from the missing step's version `k` to the requested target `c` (not the
full requested span). -/
theorem migrate_configuration_missing_step_error (a k c : Nat)
    (blob blob' : ConfigBlob) (table : MigrationTable)
    (hak : a ≤ k) (hkc : k < c)
    (hrun : migrate_configuration a k blob table = .ok blob')
    (hmissing : table k = none) :
    migrate_configuration a c blob table =
      .error (.missingMigration (missingMigrationMessage k c)) := by
  rw [migrate_prefix_ok (k - a) a k c blob blob' table (by omega) (by omega) hrun]
  rw [migrate_configuration_step _ _ _ _ hkc]
  rw [hmissing]

/-- Witness for the amended C5 at the test's concrete input: requesting
1 → 4 over the stub table fails naming `upgrade_from_v3` and the span
3 → 4. -/
theorem migrate_configuration_missing_step_error_witness :
    migrate_configuration 1 4 stubV1Config StubMigration =
      .error (.missingMigration (missingMigrationMessage 3 4)) :=
  migrate_configuration_missing_step_error 1 3 4 stubV1Config stubV3Config
    StubMigration (by omega) (by omega) rfl rfl

/-! ### Lease subsystem and expiry scheduling (§4.4) -/

/-- Modelled from the spec (§7): `LeaseAlreadyHeld` — acquire requested for
a dataset already leased to a different node. -/
inductive LeaseError where
  | leaseAlreadyHeld (dataset_id node_id : UUID)
deriving DecidableEq

/-- Look up the lease held on a dataset, if any. -/
def Leases.lookup : Leases → UUID → Option Lease
  | [], _ => none
  | l :: ls, did => if l.dataset_id = did then some l else Leases.lookup ls did

/-- Modelled from the spec (§4.4): a lease is live at `now` when it has no
expiration or its expiration is strictly in the future (expiry removes
leases whose expiration is at or before `now`). -/
def Lease.isLive (l : Lease) (now : Int) : Bool :=
  match l.expiration with
  | none => true
  | some e => now < e

/-- Modelled from the spec (§4.4): `release` removes the lease
unconditionally; removing an absent lease is a no-op. -/
def Leases.remove : Leases → UUID → Leases
  | [], _ => []
  | l :: ls, did =>
    if l.dataset_id = did then Leases.remove ls did
    else l :: Leases.remove ls did

/-- Modelled from the spec (§4.4): acquire — if the dataset has no live
lease, create one with `expiration = now + ttl` (or none without a ttl); if
the live lease is held by the same node, refresh its expiration; otherwise
fail with `LeaseAlreadyHeld`. -/
def Leases.acquire (ls : Leases) (now : Int) (dataset_id node_id : UUID)
    (ttl : Option Int) : Except LeaseError Leases :=
  let renewed : Lease := ⟨dataset_id, node_id, ttl.map (fun t => now + t)⟩
  match ls.lookup dataset_id with
  | some l =>
    if l.isLive now then
      if l.node_id = node_id then .ok (ls.remove dataset_id ++ [renewed])
      else .error (.leaseAlreadyHeld dataset_id node_id)
    else .ok (ls.remove dataset_id ++ [renewed])
  | none => .ok (ls ++ [renewed])

/-- Modelled from the spec (§4.4): `expire now` removes every lease whose
expiration is at or before `now`. -/
def Leases.expire : Leases → Int → Leases
  | [], _ => []
  | l :: ls, now =>
    if l.isLive now then l :: Leases.expire ls now else Leases.expire ls now

/-- Modelled from the spec (§4.4): the earliest expiration among all live
leases — the instant for which the service arms its single timer. -/
def Leases.earliestExpiration : Leases → Option Int
  | [] => none
  | l :: ls =>
    match l.expiration, Leases.earliestExpiration ls with
    | none, r => r
    | some e, none => some e
    | some e, some r => some (min e r)

/-- Modelled from the spec (§4.4): timer firing up to a clock instant — each
time the armed timer's instant is at or before `target`, the service fires
it, removes the leases expired at that instant, and re-arms at the next
earliest expiration.  The fuel bounds the number of firings by the number of
leases. -/
def fireTimersUpTo : Nat → Leases → Int → Leases
  | 0, ls, _ => ls
  | fuel + 1, ls, target =>
    match ls.earliestExpiration with
    | none => ls
    | some e =>
      if e ≤ target then fireTimersUpTo fuel (ls.expire e) target
      else ls

/-- The leases the persistence service holds once its clock has advanced to
`target`: every armed expiry timer with an instant at or before `target` has
fired. -/
def Leases.advanceTo (ls : Leases) (target : Int) : Leases :=
  fireTimersUpTo ls.length ls target

/-- The C7 scenario's node and dataset identities. -/
def c7Node : UUID := ⟨"node-n"⟩

def c7DatasetD : UUID := ⟨"dataset-d"⟩

def c7DatasetE : UUID := ⟨"dataset-e"⟩

/-- The C7 scenario: at time 0, dataset D is leased to node N with ttl 100
and a second dataset with ttl 200. -/
def c7Leases : Leases :=
  match Leases.acquire [] 0 c7DatasetD c7Node (some 100) with
  | .ok ls =>
    match ls.acquire 0 c7DatasetE c7Node (some 200) with
    | .ok ls2 => ls2
    | .error _ => []
  | .error _ => []

/-- C7: lease expiry boundary timing and independence — with a lease on D by
N acquired at 0 with ttl 100 and a lease on a second dataset with ttl 200:
at elapsed time 99 D's lease is present and held by N; at 101 D's lease is
absent while the second lease is still present; at 201 the second lease is
absent too; each firing removes exactly the lease whose own expiration
instant has passed. -/
theorem lease_expiry_boundary_timing :
    (c7Leases.advanceTo 99 = c7Leases ∧
      ((c7Leases.advanceTo 99).lookup c7DatasetD).map Lease.node_id = some c7Node) ∧
    ((c7Leases.advanceTo 99).advanceTo 101 = c7Leases.remove c7DatasetD ∧
      ((c7Leases.advanceTo 99).advanceTo 101).lookup c7DatasetD = none ∧
      (((c7Leases.advanceTo 99).advanceTo 101).lookup c7DatasetE).map Lease.node_id =
        some c7Node) ∧
    (((c7Leases.advanceTo 99).advanceTo 101).advanceTo 199 =
      c7Leases.remove c7DatasetD) ∧
    ((((c7Leases.advanceTo 99).advanceTo 101).advanceTo 199).advanceTo 201 =
      (c7Leases.remove c7DatasetD).remove c7DatasetE ∧
      ((((c7Leases.advanceTo 99).advanceTo 101).advanceTo 199).advanceTo 201).lookup
        c7DatasetE = none) := by
  decide

/-! ### Configuration persistence service (§4.3) -/

/-- Modelled from the spec (§4.3, §9): a registered zero-argument
notification callback, abstracted to an identity plus whether invoking it
raises. -/
structure RegisteredCallback where
  ident : Nat
  raisesError : Bool
deriving DecidableEq

/-- The observable effects of one `save` step: the disk write, each
callback's invocation (isolated success or logged failure), and the
structured no-op log event. -/
inductive SaveEvent where
  | diskWrite (d : Deployment)
  | callbackSucceeded (ident : Nat)
  | callbackFailed (ident : Nat)
  | unchangedNotSaved
deriving DecidableEq

/-- The observable completion of `save`: its result fires with `None`
(`fired`), or the backing-store write failed and the failure propagates. -/
inductive SaveResult where
  | fired
  | ioError (message : String)
deriving DecidableEq

/-- Modelled from the spec (§4.3, §5): the running service — the current
in-memory `Deployment` it exclusively owns, the ordered callback registry,
and whether the backing store accepts writes. -/
structure ConfigurationPersistenceService where
  deployment : Deployment
  callbacks : List RegisteredCallback
  diskWorks : Bool
deriving DecidableEq

/-- The outcome of one `save` step: the post-state, the emitted events in
order, and the completion. -/
structure SaveOutcome where
  service : ConfigurationPersistenceService
  events : List SaveEvent
  result : SaveResult
deriving DecidableEq

/-- Modelled from the spec (§4.3, §9): the notification round — every
registered callback is invoked in registration order, each wrapped so that
a failure is captured and logged without unwinding the loop. -/
def runCallbacks (cbs : List RegisteredCallback) : List SaveEvent :=
  cbs.map fun cb =>
    if cb.raisesError then .callbackFailed cb.ident else .callbackSucceeded cb.ident

/-- Modelled from the spec (§4.3): `save` — if the new deployment equals the
current in-memory value, skip the disk write and the callbacks entirely and
succeed immediately; otherwise persist (an I/O failure is fatal for the
call and changes nothing), update the in-memory snapshot and invoke every
registered callback. -/
def ConfigurationPersistenceService.save (s : ConfigurationPersistenceService)
    (d : Deployment) : SaveOutcome :=
  if d = s.deployment then
    ⟨s, [.unchangedNotSaved], .fired⟩
  else if s.diskWorks then
    ⟨{ s with deployment := d }, .diskWrite d :: runCallbacks s.callbacks, .fired⟩
  else
    ⟨s, [], .ioError "backing store write failed"⟩

/-- Modelled from the spec (§4.3): `register` appends a callback to the
registry; it is invoked only on future change-causing saves. -/
def ConfigurationPersistenceService.register
    (s : ConfigurationPersistenceService) (cb : RegisteredCallback) :
    ConfigurationPersistenceService :=
  { s with callbacks := s.callbacks ++ [cb] }

/-- Modelled from the spec (§4.3): `get` returns the current in-memory
snapshot. -/
def ConfigurationPersistenceService.get (s : ConfigurationPersistenceService) :
    Deployment :=
  s.deployment

/-- C2: no-op save short-circuit — saving a deployment structurally equal to
the current in-memory one skips the disk write, invokes no callback, leaves
the whole service state (including the callbacks list) unchanged, and
succeeds immediately with `None`, regardless of whether the backing store
would accept a write. -/
theorem save_unchanged_short_circuit (s : ConfigurationPersistenceService)
    (d : Deployment) (h : d = s.deployment) :
    (s.save d).service = s ∧
    (s.save d).result = .fired ∧
    (∀ dep, SaveEvent.diskWrite dep ∉ (s.save d).events) ∧
    (∀ i, SaveEvent.callbackSucceeded i ∉ (s.save d).events ∧
      SaveEvent.callbackFailed i ∉ (s.save d).events) ∧
    (s.save d).service.callbacks = s.callbacks := by
  simp [ConfigurationPersistenceService.save, h]

/-- The C2 witness scenario: a service already holding the empty deployment,
with one registered callback and a backing store that would reject writes. -/
def c2Service : ConfigurationPersistenceService :=
  ⟨⟨[], []⟩, [⟨0, false⟩], false⟩

/-- Witness for C2 at a concrete input: re-saving the current deployment of
`c2Service` writes nothing, calls nothing, changes nothing and fires with
`None`. -/
theorem save_unchanged_short_circuit_witness :
    (c2Service.save ⟨[], []⟩).service = c2Service ∧
    (c2Service.save ⟨[], []⟩).result = .fired ∧
    (∀ dep, SaveEvent.diskWrite dep ∉ (c2Service.save ⟨[], []⟩).events) ∧
    (∀ i, SaveEvent.callbackSucceeded i ∉ (c2Service.save ⟨[], []⟩).events ∧
      SaveEvent.callbackFailed i ∉ (c2Service.save ⟨[], []⟩).events) ∧
    (c2Service.save ⟨[], []⟩).service.callbacks = c2Service.callbacks :=
  save_unchanged_short_circuit c2Service ⟨[], []⟩ rfl

/-- C6: callback isolation — on a change-causing save whose disk write
succeeds, a callback that raises has its failure logged as an event, every
callback registered after it is still invoked on that same save, and the
save still fires with `None`. -/
theorem save_callback_failure_isolated (s : ConfigurationPersistenceService)
    (d : Deployment) (pre post : List RegisteredCallback)
    (bad : RegisteredCallback) (hneq : d ≠ s.deployment)
    (hdisk : s.diskWorks = true) (hcbs : s.callbacks = pre ++ bad :: post)
    (hbad : bad.raisesError = true) :
    SaveEvent.callbackFailed bad.ident ∈ (s.save d).events ∧
    (∀ cb ∈ post,
      (cb.raisesError = false →
        SaveEvent.callbackSucceeded cb.ident ∈ (s.save d).events) ∧
      (cb.raisesError = true →
        SaveEvent.callbackFailed cb.ident ∈ (s.save d).events)) ∧
    (s.save d).result = .fired := by
  have hevents : (s.save d).events = .diskWrite d :: runCallbacks s.callbacks := by
    simp [ConfigurationPersistenceService.save, hneq, hdisk]
  have hres : (s.save d).result = .fired := by
    simp [ConfigurationPersistenceService.save, hneq, hdisk]
  have hmem : ∀ cb : RegisteredCallback, cb ∈ s.callbacks →
      (if cb.raisesError = true then SaveEvent.callbackFailed cb.ident
       else SaveEvent.callbackSucceeded cb.ident) ∈ (s.save d).events := by
    intro cb hcb
    rw [hevents]
    exact List.mem_cons_of_mem _ (List.mem_map_of_mem _ hcb)
  refine ⟨?_, ?_, hres⟩
  · have hbadmem : bad ∈ s.callbacks := by
      rw [hcbs]
      exact List.mem_append_right _ (List.mem_cons_self _ _)
    have h2 := hmem bad hbadmem
    rw [hbad] at h2
    simpa using h2
  · intro cb hcb
    have hcbmem : cb ∈ s.callbacks := by
      rw [hcbs]
      exact List.mem_append_right _ (List.mem_cons_of_mem _ hcb)
    constructor
    · intro hok
      have h2 := hmem cb hcbmem
      rw [hok] at h2
      simpa using h2
    · intro hraise
      have h2 := hmem cb hcbmem
      rw [hraise] at h2
      simpa using h2

/-- The C6 witness scenario: an empty-deployment service with a raising
callback registered before a well-behaved one, and a working backing
store. -/
def c6Service : ConfigurationPersistenceService :=
  ⟨⟨[], []⟩, [⟨0, true⟩, ⟨1, false⟩], true⟩

/-- The deployment saved in the C6 and C10 witness scenarios: one node, no
leases. -/
def witnessDeployment : Deployment := ⟨[⟨⟨"node-w"⟩, [], []⟩], []⟩

/-- Witness for C6 at a concrete input: callback 0 raises, its failure is
logged, the later-registered callback 1 still runs, and the save fires. -/
theorem save_callback_failure_isolated_witness :
    SaveEvent.callbackFailed 0 ∈ (c6Service.save witnessDeployment).events ∧
    (∀ cb ∈ [(⟨1, false⟩ : RegisteredCallback)],
      (cb.raisesError = false →
        SaveEvent.callbackSucceeded cb.ident ∈
          (c6Service.save witnessDeployment).events) ∧
      (cb.raisesError = true →
        SaveEvent.callbackFailed cb.ident ∈
          (c6Service.save witnessDeployment).events)) ∧
    (c6Service.save witnessDeployment).result = .fired :=
  save_callback_failure_isolated c6Service witnessDeployment [] [⟨1, false⟩]
    ⟨0, true⟩ (by decide) rfl rfl rfl

/-! ### `update_leases` (§4.4, tests `LeasesTests`) -/

/-- The outcome of `update_leases`: the post-state, the emitted events, and
the result value — the updated `Leases` on success. -/
structure UpdateLeasesOutcome where
  service : ConfigurationPersistenceService
  events : List SaveEvent
  result : Except String Leases

/-- Modelled from the spec (§4.4) and the tests: `update_leases` applies a
pure transformation to the current deployment's leases, saves the deployment
with the transformed leases, and returns the updated `Leases` value. -/
def update_leases (transform : Leases → Leases)
    (s : ConfigurationPersistenceService) : UpdateLeasesOutcome :=
  let newLeases := transform s.deployment.leases
  let out := s.save { s.deployment with leases := newLeases }
  ⟨out.service, out.events,
    match out.result with
    | .fired => .ok newLeases
    | .ioError e => .error e⟩

/-- C10: `update_leases` frame property — with a working backing store, it
replaces the stored deployment's leases with `transform` of the current
leases, leaves the nodes untouched, and its result is exactly the updated
`Leases` value. -/
theorem update_leases_frame (transform : Leases → Leases)
    (s : ConfigurationPersistenceService) (hdisk : s.diskWorks = true) :
    (update_leases transform s).service.deployment.nodes = s.deployment.nodes ∧
    (update_leases transform s).service.deployment.leases =
      transform s.deployment.leases ∧
    (update_leases transform s).result = .ok (transform s.deployment.leases) := by
  by_cases h : ({ s.deployment with leases := transform s.deployment.leases }
      : Deployment) = s.deployment
  · have hleases : transform s.deployment.leases = s.deployment.leases := by
      have := congrArg Deployment.leases h
      simpa using this
    simp [update_leases, ConfigurationPersistenceService.save, h, hleases]
  · simp [update_leases, ConfigurationPersistenceService.save, h, hdisk]

/-- The C10 witness scenario: a service holding `witnessDeployment` with no
leases and a working backing store. -/
def c10Service : ConfigurationPersistenceService :=
  ⟨witnessDeployment, [], true⟩

/-- The C10 witness transformation: acquire a lease on a fresh dataset,
falling back to the input on a `LeaseAlreadyHeld` error. -/
def c10Transform (ls : Leases) : Leases :=
  match ls.acquire 1000 ⟨"dataset-u"⟩ ⟨"node-u"⟩ none with
  | .ok ls2 => ls2
  | .error _ => ls

/-- Witness for C10 at a concrete input: acquiring a lease through
`update_leases` changes exactly the leases and returns them. -/
theorem update_leases_frame_witness :
    (update_leases c10Transform c10Service).service.deployment.nodes =
      c10Service.deployment.nodes ∧
    (update_leases c10Transform c10Service).service.deployment.leases =
      c10Transform c10Service.deployment.leases ∧
    (update_leases c10Transform c10Service).result =
      .ok (c10Transform c10Service.deployment.leases) :=
  update_leases_frame c10Transform c10Service rfl

/-! ### REST API client fake (`flocker/apiclient/_client.py`) -/

/-- Embedded from `flocker/apiclient/_client.py`: the `Dataset` record of
the API client (`dataset_id`, `primary`, `maximum_size`, `metadata`,
`deleted`; `deleted` is left unset by `create_dataset`, embedded as
`none`). -/
structure ApiDataset where
  dataset_id : UUID
  primary : UUID
  maximum_size : Int
  metadata : List (String × String)
  deleted : Option Bool
deriving DecidableEq

/-- Embedded from `flocker/apiclient/_client.py`: the error taxonomy of the
dataset API — `DatasetAlreadyExists` is declared for a creation request
whose dataset id already exists. -/
inductive ApiError where
  | datasetAlreadyExists
deriving DecidableEq

/-- Embedded from `flocker/apiclient/_client.py`: the in-memory fake,
holding the configured datasets keyed by dataset id. -/
structure FakeFlockerAPIV1 where
  configured_datasets : List (UUID × ApiDataset)
deriving DecidableEq

/-- Python dict assignment on the embedding of the configured-datasets map:
replace the entry under the key if present, else append it. -/
def mapInsert (m : List (UUID × ApiDataset)) (k : UUID) (v : ApiDataset) :
    List (UUID × ApiDataset) :=
  match m with
  | [] => [(k, v)]
  | (k', v') :: rest =>
    if k' = k then (k, v) :: rest else (k', v') :: mapInsert rest k v

/-- Embedded from `flocker/apiclient/_client.py`
(`FakeFlockerAPIV1.create_dataset`, lines 105–114) for a caller-supplied
`dataset_id`: it builds the dataset, stores it under `dataset_id`
unconditionally, and succeeds — there is no existence check. -/
def FakeFlockerAPIV1.create_dataset (api : FakeFlockerAPIV1) (primary : UUID)
    (maximum_size : Int) (dataset_id : UUID)
    (metadata : List (String × String)) :
    FakeFlockerAPIV1 × Except ApiError ApiDataset :=
  let result : ApiDataset := ⟨dataset_id, primary, maximum_size, metadata, none⟩
  (⟨mapInsert api.configured_datasets dataset_id result⟩, .ok result)

/-- The pre-existing dataset of the C9 failing input: dataset `d-1` on node
`n-1` with maximum size 100. -/
def c9Existing : ApiDataset := ⟨⟨"d-1"⟩, ⟨"n-1"⟩, 100, [], none⟩

/-- The C9 failing input's API state: dataset id `d-1` already exists in the
configuration. -/
def c9Api : FakeFlockerAPIV1 := ⟨[(⟨"d-1"⟩, c9Existing)]⟩

/-- C9 (code bug evaluated at the failing input): `create_dataset` requesting
the already-existing dataset id `d-1` succeeds and silently replaces the
existing configuration entry, instead of failing with
`DatasetAlreadyExists` and leaving the entry unchanged as the
`IFlockerAPIV1.create_dataset` interface documentation promises. -/
theorem fake_create_dataset_overwrites_existing :
    (c9Api.create_dataset ⟨"n-2"⟩ 200 ⟨"d-1"⟩ []).2 =
      .ok ⟨⟨"d-1"⟩, ⟨"n-2"⟩, 200, [], none⟩ ∧
    (c9Api.create_dataset ⟨"n-2"⟩ 200 ⟨"d-1"⟩ []).1.configured_datasets =
      [(⟨"d-1"⟩, ⟨⟨"d-1"⟩, ⟨"n-2"⟩, 200, [], none⟩)] ∧
    (c9Api.create_dataset ⟨"n-2"⟩ 200 ⟨"d-1"⟩ []).1.configured_datasets ≠
      c9Api.configured_datasets := by
  refine ⟨rfl, rfl, ?_⟩
  decide

end Flocker
